import Mathlib

/-!
# Verification of the buk-reservation-system eligibility and collision core

Shallow embedding of the reservation eligibility evaluator and the
collision-detection algorithm of the `buk-reservation-system` repository
(`app/api/utils.py`, `app/services/utils.py`, `app/services/event_services.py`,
`app/api/events.py`, `app/schemas/calendar.py`), together with theorems
settling the specification claims about them.

Modelling conventions:
* Timestamps (`datetime` values) are absolute instants measured in whole
  minutes, represented as `Int`.  Durations (`timedelta`) are likewise in
  minutes; `timedelta(hours=h)` is `h * 60`, `timedelta(days=d)` is `d * 1440`.
  The `.time()` component of a timestamp (time of day) is `t % 1440`,
  matching Python's nonnegative `%` semantics.
* The Google-calendar query `get_events(service, start, end, calendar_id)`
  is abstracted as a supplier function `Time → Time → String → List GEvent`
  passed explicitly; the booking pipeline is otherwise translated clause by
  clause from the Python source.
* `dt.datetime.now()` is injected as an explicit `now : Time` parameter.
* The Python functions signal denial with `{"message": ...}` dictionaries;
  the distinct message strings are modelled by the inductive `CheckMsg`
  (each constructor corresponds to one message format string, carrying the
  interpolated values), and "Access" by `none : Option CheckMsg`.
-/

/-- Absolute timestamps in minutes (the embedding of `datetime`). -/
abbrev Time := Int

/-- One existing booking as returned by the calendar supplier: the
`start.dateTime` / `end.dateTime` fields of a Google calendar event. -/
structure GEvent where
  startDateTime : Time
  endDateTime : Time
deriving DecidableEq, Repr

/-- The supplier abstraction of `get_events`: given the requested window and a
calendar id, the list of existing events of that calendar overlapping the
window. -/
abbrev EventSupplier := Time → Time → String → List GEvent

/-- `schemas/calendar.py` `Rules`: per-tier reservation rules.  The numeric
fields are `int = Field(ge=0)` in pydantic; we keep them as `Int` and model
the pydantic validation separately in `mkRules`. -/
structure Rules where
  night_time : Bool
  reservation_without_permission : Bool
  max_reservation_hours : Int
  in_advance_hours : Int
  in_advance_minutes : Int
  in_prior_days : Int
deriving DecidableEq, Repr

/-- Pydantic validation of a `Rules` construction request: each numeric field
carries `Field(ge=0)`, so construction raises (here: returns `none`) when any
of the four numeric fields is negative. -/
def mkRules (night_time reservation_without_permission : Bool)
    (max_reservation_hours in_advance_hours in_advance_minutes in_prior_days : Int) :
    Option Rules :=
  if 0 ≤ max_reservation_hours ∧ 0 ≤ in_advance_hours ∧
     0 ≤ in_advance_minutes ∧ 0 ≤ in_prior_days then
    some { night_time := night_time
           reservation_without_permission := reservation_without_permission
           max_reservation_hours := max_reservation_hours
           in_advance_hours := in_advance_hours
           in_advance_minutes := in_advance_minutes
           in_prior_days := in_prior_days }
  else
    none

/-- `schemas/calendar.py` `Calendar` (the fields the core reads).
`max_people` is `Field(ge=1)` at creation; theorems that need that invariant
take it as a hypothesis. -/
structure Calendar where
  id : String
  collision_with_calendar : List String
  more_than_max_people_with_permission : Bool
  reservation_type : String
  max_people : Int
  collision_with_itself : Bool
  club_member_rules : Rules
  active_member_rules : Rules
  manager_rules : Rules
deriving DecidableEq, Repr

/-- `schemas/event.py` `EventCreate` (the fields the core reads).
`guests` is `Field(ge=1)` at creation. -/
structure EventCreate where
  start_datetime : Time
  end_datetime : Time
  purpose : String
  guests : Int
  reservation_type : String
  email : String
  additional_services : List String
deriving DecidableEq, Repr

/-- `schemas/user.py` `User` (the fields the core reads). -/
structure User where
  id : Int
  username : String
  full_name : String
  room_number : String
  active_member : Bool
  section_head : Bool
  roles : List String
deriving DecidableEq, Repr

/-- `schemas/data_is.py` `Service` (the fields the core reads). -/
structure Service where
  «alias» : String
  name : String
deriving DecidableEq, Repr

/-- `schemas/data_is.py` `ServiceValidity` (the fields the core reads). -/
structure ServiceValidity where
  service : Service
deriving DecidableEq, Repr

/-- `models/reservation_service.py` `ReservationService` (the fields the core
reads). -/
structure ReservationService where
  name : String
  «alias» : String
deriving DecidableEq, Repr

/-- `api/utils.py` `check_collision_time`.  Returns `true` when the requested
slot is FREE and `false` when it conflicts (the Python docstring's polarity:
the caller treats `False` as "already another reservation").

Clause by clause from the source:
1. when `collision_with_itself` is false, re-fetch the calendar's own events
   overlapping the window; if their count exceeds `max_people`, conflict;
2. empty gathered list → free;
3. more than one gathered event → conflict;
4. exactly one gathered event → free iff it is exactly back-to-back with the
   request (`end_date_event == start_date` or `start_date_event == end_date`;
   the timezone conversions in the source preserve the instants compared). -/
def check_collision_time (supplier : EventSupplier) (check_collision : List GEvent)
    (start_datetime end_datetime : Time) (calendar : Calendar) : Bool :=
  if ¬ calendar.collision_with_itself = true ∧
     calendar.max_people <
       ((supplier start_datetime end_datetime calendar.id).length : Int) then
    false
  else if check_collision.length = 0 then
    true
  else if 1 < check_collision.length then
    false
  else
    match check_collision with
    | e :: _ =>
        e.endDateTime == start_datetime || e.startDateTime == end_datetime
    | [] => true

/-- The list of events gathered by `control_collision`: for every calendar id
in `collision_with_calendar ++ [calendar.id]` (the source appends the
calendar's own id before iterating), the supplier's events overlapping the
requested window, concatenated in order. -/
def gather_collisions (supplier : EventSupplier) (event_input : EventCreate)
    (calendar : Calendar) : List GEvent :=
  (calendar.collision_with_calendar ++ [calendar.id]).flatMap
    (fun cid => supplier event_input.start_datetime event_input.end_datetime cid)

/-- `api/utils.py` `control_collision`.  Returns `true` when the slot is free,
`false` when there is already another reservation.

The Python source writes `collisions = calendar.collision_with_calendar`
followed by `collisions.append(calendar.id)`: the local name aliases the
calendar's own list, so the append MUTATES `calendar.collision_with_calendar`.
We model the mutation by returning the updated calendar in the second
component.  The subsequent `if calendar.collision_with_calendar:` truthiness
test reads the already-mutated list. -/
def control_collision (supplier : EventSupplier) (event_input : EventCreate)
    (calendar : Calendar) : Bool × Calendar :=
  let collisions := calendar.collision_with_calendar ++ [calendar.id]
  let calendar' := { calendar with collision_with_calendar := collisions }
  let check_collision :=
    if calendar'.collision_with_calendar.isEmpty then
      []
    else
      collisions.flatMap
        (fun cid => supplier event_input.start_datetime event_input.end_datetime cid)
  (check_collision_time supplier check_collision
      event_input.start_datetime event_input.end_datetime calendar',
   calendar')

/-- `api/utils.py` `check_night_reservation`: a user may book at night iff an
active member. -/
def check_night_reservation (user : User) : Bool :=
  if ¬ user.active_member = true then false else true

/-- `api/utils.py` `control_available_reservation_time`: compares only the
time-of-day components (`.time()`) of start and end against 08:00 and 22:00
(480 and 1320 minutes). -/
def control_available_reservation_time (start_datetime end_datetime : Time) : Bool :=
  let start_time := start_datetime % 1440
  let end_time := end_datetime % 1440
  if start_time < 480 ∨ end_time < 480 ∨ 1320 < end_time then false else true

/-- The distinct denial messages of the booking pipeline, one constructor per
`{"message": ...}` format string in the source, carrying the interpolated
values.  `"Access"` is modelled as `none : Option CheckMsg`. -/
inductive CheckMsg where
  /-- Message "You don't have \x7bservice_alias\x7d service!" -/
  | missingService (service_alias : String)
  /-- Message "You can't make a reservation before the present time!" -/
  | beforePresent
  /-- Message "The end of a reservation cannot be before its beginning!" -/
  | endBeforeStart
  /-- Message "You can't reserve this type of reservation for more than
  \x7bmax_people\x7d people!" -/
  | overCapacity (max_people : Int)
  /-- Message "You can reserve on different day." (duration above the maximum) -/
  | differentDay
  /-- Message "You have to make reservations \x7bh\x7d hours and \x7bm\x7d minutes in
  advance!" -/
  | advanceNotice (hours minutes : Int)
  /-- Message "You can't make reservations earlier than \x7bd\x7d days in advance!" -/
  | priorWindow (days : Int)
deriving DecidableEq, Repr

/-- `services/utils.py` `service_availability_check`: does the user hold a
service with the given alias. -/
def service_availability_check (services : List ServiceValidity)
    (service_alias : String) : Bool :=
  services.any (fun sv => sv.service.«alias» == service_alias)

/-- `services/utils.py` `first_standard_check`: membership check, then start
not before now, then end not before start; first failure wins, `none` means
"Access". -/
def first_standard_check (services : List ServiceValidity)
    (reservation_service : ReservationService)
    (start_time end_time now : Time) : Option CheckMsg :=
  if ¬ service_availability_check services reservation_service.«alias» = true then
    some (CheckMsg.missingService reservation_service.«alias»)
  else if start_time < now then
    some CheckMsg.beforePresent
  else if end_time < start_time then
    some CheckMsg.endBeforeStart
  else
    none

/-- `services/utils.py` `dif_days_res`: the absolute duration must not exceed
`max_reservation_hours` (converted to minutes). -/
def dif_days_res (start_datetime end_datetime : Time) (user_rules : Rules) : Bool :=
  let time_difference := |end_datetime - start_datetime|
  if user_rules.max_reservation_hours * 60 < time_difference then false else true

/-- `services/utils.py` `control_res_in_advance_or_prior`: compares the
ABSOLUTE difference `|start_time - now|` against the advance threshold
(`in_advance_hours` hours + `in_advance_minutes` minutes, strict `<` fails)
or the prior threshold (`in_prior_days` days, strict `>` fails). -/
def control_res_in_advance_or_prior (start_time now : Time) (user_rules : Rules)
    (in_advance : Bool) : Bool :=
  let time_difference := |start_time - now|
  if in_advance then
    if time_difference < user_rules.in_advance_minutes + user_rules.in_advance_hours * 60
    then false else true
  else
    if user_rules.in_prior_days * 1440 < time_difference then false else true

/-- `services/utils.py` `reservation_in_advance`: advance-notice check first,
then prior-window check; first failure wins, `none` means "Access". -/
def reservation_in_advance (start_time now : Time) (user_rules : Rules) :
    Option CheckMsg :=
  if ¬ control_res_in_advance_or_prior start_time now user_rules true = true then
    some (CheckMsg.advanceNotice user_rules.in_advance_hours user_rules.in_advance_minutes)
  else if ¬ control_res_in_advance_or_prior start_time now user_rules false = true then
    some (CheckMsg.priorWindow user_rules.in_prior_days)
  else
    none

/-- `services/event_services.py` `EventService.__choose_user_rules`: guests
(non-active members) get the club-member rules, managers of the resource get
the manager rules, other active members the active-member rules. -/
def choose_user_rules (user : User) (calendar : Calendar)
    (reservation_service : ReservationService) : Rules :=
  if ¬ user.active_member = true then calendar.club_member_rules
  else if reservation_service.«alias» ∈ user.roles then calendar.manager_rules
  else calendar.active_member_rules

/-- `services/event_services.py` `EventService.__control_conditions_and_permissions`:
the sequential rule checks of the booking pipeline, in source order —
`first_standard_check` (membership, start-not-before-now, end-not-before-start),
then the capacity check, then duration, then advance notice, then prior
window; the returned message is the first failing check's, `none` is
"Access". -/
def control_conditions_and_permissions (user : User)
    (services : List ServiceValidity) (event_input : EventCreate)
    (calendar : Calendar) (reservation_service : ReservationService)
    (now : Time) : Option CheckMsg :=
  match first_standard_check services reservation_service
      event_input.start_datetime event_input.end_datetime now with
  | some m => some m
  | none =>
    if ¬ calendar.more_than_max_people_with_permission = true ∧
       calendar.max_people < event_input.guests then
      some (CheckMsg.overCapacity calendar.max_people)
    else
      let user_rules := choose_user_rules user calendar reservation_service
      if ¬ dif_days_res event_input.start_datetime event_input.end_datetime
          user_rules = true then
        some CheckMsg.differentDay
      else
        match reservation_in_advance event_input.start_datetime now user_rules with
        | some m => some m
        | none => none

/-- The observable outcome of the `create_event` endpoint
(`api/events.py`), abstracting the HTTP/persistence plumbing:
* `alreadyBooked` — "There's already a reservation for that time."
  (collision detected, nothing created);
* `denied m` — `post_event` returned the denial message `m`, nothing created;
* `flaggedOverCapacity` — booking created with `EventState.NOT_APPROVED` and
  summary "Not approved - more than N people";
* `flaggedNightTime` — booking created with `EventState.NOT_APPROVED` and
  summary "Not approved - night time";
* `confirmed` — booking created with `EventState.CONFIRMED`. -/
inductive Outcome where
  | alreadyBooked
  | denied (m : CheckMsg)
  | flaggedOverCapacity
  | flaggedNightTime
  | confirmed
deriving DecidableEq, Repr

/-- `api/events.py` `create_event` (decision structure): collision check
first; then `post_event`, i.e. `__control_conditions_and_permissions`; then
the over-capacity flagging branch; then the night-time flagging branch for
non-active members; otherwise confirmed.  The first component of
`control_collision` is its Boolean result (`true` = slot free). -/
def create_event (supplier : EventSupplier) (user : User)
    (services : List ServiceValidity) (event_create : EventCreate)
    (calendar : Calendar) (reservation_service : ReservationService)
    (now : Time) : Outcome :=
  if ¬ (control_collision supplier event_create calendar).1 = true then
    Outcome.alreadyBooked
  else
    match control_conditions_and_permissions user services event_create
        calendar reservation_service now with
    | some m => Outcome.denied m
    | none =>
      if calendar.max_people < event_create.guests then
        Outcome.flaggedOverCapacity
      else if ¬ check_night_reservation user = true ∧
          ¬ control_available_reservation_time event_create.start_datetime
              event_create.end_datetime = true then
        Outcome.flaggedNightTime
      else
        Outcome.confirmed

/-- Spec-side combinator: a list of (check-passed?, failure-reason) pairs,
evaluated sequentially, returning the reason of the first failing check
(`none` when all pass).  Used to state the short-circuit ordering claim. -/
def firstFailure : List (Bool × CheckMsg) → Option CheckMsg
  | [] => none
  | (ok, msg) :: rest => if ok then firstFailure rest else some msg

/-- Spec-side restatement of the eligibility evaluator following the
specification's words: the checks listed in order — membership/service
entitlement, start not before now, end not before start, capacity, maximum
duration, advance notice, prior window — each short-circuiting on first
failure, the decision being the reason of the first failing check.
To be compared with `control_conditions_and_permissions`. -/
def eligibility_spec_order (user : User) (services : List ServiceValidity)
    (event_input : EventCreate) (calendar : Calendar)
    (reservation_service : ReservationService) (now : Time) : Option CheckMsg :=
  let user_rules := choose_user_rules user calendar reservation_service
  firstFailure
    [ (service_availability_check services reservation_service.«alias»,
        CheckMsg.missingService reservation_service.«alias»),
      (decide (¬ event_input.start_datetime < now),
        CheckMsg.beforePresent),
      (decide (¬ event_input.end_datetime < event_input.start_datetime),
        CheckMsg.endBeforeStart),
      (decide (calendar.more_than_max_people_with_permission = true ∨
               event_input.guests ≤ calendar.max_people),
        CheckMsg.overCapacity calendar.max_people),
      (dif_days_res event_input.start_datetime event_input.end_datetime user_rules,
        CheckMsg.differentDay),
      (control_res_in_advance_or_prior event_input.start_datetime now user_rules true,
        CheckMsg.advanceNotice user_rules.in_advance_hours user_rules.in_advance_minutes),
      (control_res_in_advance_or_prior event_input.start_datetime now user_rules false,
        CheckMsg.priorWindow user_rules.in_prior_days) ]

/-- Variant of `check_collision_time` with the self-overlap capacity branch
(the `if not calendar.collision_with_itself: ...` block) removed; used to
state that the branch never changes the result of the full detector. -/
def check_collision_time_no_self (check_collision : List GEvent)
    (start_datetime end_datetime : Time) : Bool :=
  if check_collision.length = 0 then
    true
  else if 1 < check_collision.length then
    false
  else
    match check_collision with
    | e :: _ =>
        e.endDateTime == start_datetime || e.startDateTime == end_datetime
    | [] => true

/-- Variant of `control_collision` calling the detector without the
self-overlap capacity branch. -/
def control_collision_no_self (supplier : EventSupplier)
    (event_input : EventCreate) (calendar : Calendar) : Bool × Calendar :=
  let collisions := calendar.collision_with_calendar ++ [calendar.id]
  let calendar' := { calendar with collision_with_calendar := collisions }
  let check_collision :=
    if calendar'.collision_with_calendar.isEmpty then
      []
    else
      collisions.flatMap
        (fun cid => supplier event_input.start_datetime event_input.end_datetime cid)
  (check_collision_time_no_self check_collision
      event_input.start_datetime event_input.end_datetime,
   calendar')

/-- An existing event overlaps the requested window when their intersection
is nonempty.  This is the contract of the external interval supplier
(`fetch_overlapping_intervals` returns the bookings overlapping `[s, e]`). -/
def overlapsWindow (s e : Time) (ev : GEvent) : Prop :=
  max ev.startDateTime s < min ev.endDateTime e

/-- A supplier is faithful when every event it returns overlaps the queried
window. -/
def FaithfulSupplier (supplier : EventSupplier) : Prop :=
  ∀ s e cid, ∀ ev ∈ supplier s e cid, overlapsWindow s e ev

/-- Sample rule set used to instantiate theorems at concrete inputs:
24h max duration, 1h30m advance notice, 14-day prior window. -/
def sampleRules : Rules :=
  { night_time := true
    reservation_without_permission := true
    max_reservation_hours := 24
    in_advance_hours := 1
    in_advance_minutes := 30
    in_prior_days := 14 }

/-- Sample reservation service (alias "game") for concrete instantiations. -/
def sampleService : ReservationService :=
  { name := "Game room", «alias» := "game" }

/-- Sample active member holding no roles, for concrete instantiations. -/
def sampleUserMember : User :=
  { id := 1, username := "u1", full_name := "Sample Member", room_number := "101"
    active_member := true, section_head := false, roles := [] }

/-- Sample calendar (id "cal-A", capacity 8, self-collision permitted, no
declared colliding calendars, over-capacity not allowed), for concrete
instantiations. -/
def sampleCalendar : Calendar :=
  { id := "cal-A"
    collision_with_calendar := []
    more_than_max_people_with_permission := false
    reservation_type := "Game room"
    max_people := 8
    collision_with_itself := true
    club_member_rules := sampleRules
    active_member_rules := sampleRules
    manager_rules := sampleRules }

/-- Sample booking request with the given interval and guest count. -/
def sampleEvent (s e g : Int) : EventCreate :=
  { start_datetime := s, end_datetime := e, purpose := "party", guests := g
    reservation_type := "Game room", email := "member@example.com"
    additional_services := [] }

/-- Supplier with no existing bookings anywhere. -/
def emptySupplier : EventSupplier := fun _ _ _ => []

/-- Supplier with exactly one existing booking, on the given calendar id. -/
def singleSupplier (cid : String) (ev : GEvent) : EventSupplier :=
  fun _ _ c => if c = cid then [ev] else []

lemma append_singleton_isEmpty_false {α : Type} (l : List α) (a : α) :
    (l ++ [a]).isEmpty = false := by
  cases l <;> rfl

lemma length_le_length_flatMap {α β : Type} (l : List α) (f : α → List β)
    (x : α) (hx : x ∈ l) : (f x).length ≤ (l.flatMap f).length := by
  induction l with
  | nil => exact absurd hx (List.not_mem_nil x)
  | cons a t ih =>
    rw [List.flatMap_cons, List.length_append]
    rcases List.mem_cons.mp hx with h | h
    · subst h; exact Nat.le_add_right _ _
    · exact (ih h).trans (Nat.le_add_left _ _)

/-- The gathered list inside `control_collision` is `gather_collisions`
(the emptiness guard is vacuous because the calendar's own id was appended). -/
lemma control_collision_fst (supplier : EventSupplier)
    (event_input : EventCreate) (calendar : Calendar) :
    (control_collision supplier event_input calendar).1 =
      check_collision_time supplier
        (gather_collisions supplier event_input calendar)
        event_input.start_datetime event_input.end_datetime
        { calendar with
            collision_with_calendar := calendar.collision_with_calendar ++ [calendar.id] } := by
  unfold control_collision gather_collisions
  simp only [append_singleton_isEmpty_false, Bool.false_eq_true, if_false]

lemma check_collision_time_of_one_lt (supplier : EventSupplier)
    (l : List GEvent) (s e : Time) (calendar : Calendar)
    (h : 1 < l.length) :
    check_collision_time supplier l s e calendar = false := by
  unfold check_collision_time
  by_cases hb : (¬ calendar.collision_with_itself = true ∧
      calendar.max_people < ((supplier s e calendar.id).length : Int))
  · rw [if_pos hb]
  · rw [if_neg hb, if_neg (by omega : ¬ l.length = 0), if_pos h]

lemma check_collision_time_no_self_of_one_lt (l : List GEvent) (s e : Time)
    (h : 1 < l.length) :
    check_collision_time_no_self l s e = false := by
  unfold check_collision_time_no_self
  rw [if_neg (by omega : ¬ l.length = 0), if_pos h]

lemma check_collision_time_singleton (supplier : EventSupplier) (ev : GEvent)
    (s e : Time) (calendar : Calendar)
    (hbranch : ¬ (¬ calendar.collision_with_itself = true ∧
        calendar.max_people < ((supplier s e calendar.id).length : Int))) :
    check_collision_time supplier [ev] s e calendar =
      (ev.endDateTime == s || ev.startDateTime == e) := by
  unfold check_collision_time
  rw [if_neg hbranch]
  simp

lemma check_collision_time_eq_no_self (supplier : EventSupplier)
    (l : List GEvent) (s e : Time) (calendar : Calendar)
    (hbranch : ¬ (¬ calendar.collision_with_itself = true ∧
        calendar.max_people < ((supplier s e calendar.id).length : Int))) :
    check_collision_time supplier l s e calendar =
      check_collision_time_no_self l s e := by
  unfold check_collision_time check_collision_time_no_self
  rw [if_neg hbranch]

/-- C8: constructing a `Rules` value (`schemas/calendar.py`, pydantic
`Field(ge=0)` on all four numeric fields) fails at construction time exactly
when some numeric field is negative, and every successfully constructed
`Rules` has all numeric fields ≥ 0. -/
theorem claim_C8 (nt rwp : Bool) (mrh iah iam ipd : Int) :
    ((mkRules nt rwp mrh iah iam ipd).isSome = true ↔
      (0 ≤ mrh ∧ 0 ≤ iah ∧ 0 ≤ iam ∧ 0 ≤ ipd)) ∧
    (∀ r, mkRules nt rwp mrh iah iam ipd = some r →
      0 ≤ r.max_reservation_hours ∧ 0 ≤ r.in_advance_hours ∧
      0 ≤ r.in_advance_minutes ∧ 0 ≤ r.in_prior_days) := by
  by_cases h : (0 ≤ mrh ∧ 0 ≤ iah ∧ 0 ≤ iam ∧ 0 ≤ ipd)
  · refine ⟨by simp [mkRules, h], ?_⟩
    intro r hr
    simp only [mkRules, if_pos h, Option.some.injEq] at hr
    subst hr
    exact h
  · refine ⟨by simp [mkRules, h], ?_⟩
    intro r hr
    simp [mkRules, if_neg h] at hr

/-- Witness for C8 at concrete inputs: all-nonneg fields construct, a negative
`max_reservation_hours` fails. -/
theorem claim_C8_witness :
    (mkRules true false 24 1 30 14).isSome = true ∧
    (mkRules true false (-1) 1 30 14).isSome = false := by
  constructor
  · exact (claim_C8 true false 24 1 30 14).1.mpr (by norm_num)
  · have h := (claim_C8 true false (-1) 1 30 14).1
    by_contra hc
    have := h.mp (by revert hc; cases (mkRules true false (-1) 1 30 14).isSome <;> simp)
    norm_num at this

/-- C6: `control_res_in_advance_or_prior` (`services/utils.py`) compares the
absolute value `|start − now|` against its thresholds, so two start times
equidistant from now — one in the past, one in the future — always get the
same verdict, and a start further in the past than the prior-window
threshold is rejected by the prior check (the "too far in advance"
message). -/
theorem claim_C6 (now d : Time) (user_rules : Rules) (in_advance : Bool) :
    (control_res_in_advance_or_prior (now + d) now user_rules in_advance =
      control_res_in_advance_or_prior (now - d) now user_rules in_advance) ∧
    (user_rules.in_prior_days * 1440 < d →
      control_res_in_advance_or_prior (now - d) now user_rules false = false) := by
  constructor
  · simp only [control_res_in_advance_or_prior, add_sub_cancel_left,
      sub_sub_cancel_left, abs_neg]
  · intro h
    have h2 : user_rules.in_prior_days * 1440 < |d| :=
      lt_of_lt_of_le h (le_abs_self d)
    simp [control_res_in_advance_or_prior, h2]

/-- Witness for C6 at concrete inputs: `sampleRules` (1h30m advance, 14-day
prior window), starts 50 minutes before/after now, and a start 30000 minutes
(> 14 days) in the past. -/
theorem claim_C6_witness :
    (control_res_in_advance_or_prior (1000 + 50) 1000 sampleRules true =
      control_res_in_advance_or_prior (1000 - 50) 1000 sampleRules true) ∧
    control_res_in_advance_or_prior (1000 - 30000) 1000 sampleRules false = false :=
  ⟨(claim_C6 1000 50 sampleRules true).1,
   (claim_C6 1000 30000 sampleRules false).2 (by norm_num [sampleRules])⟩

/-- C10: the night-time check `control_available_reservation_time`
(`api/utils.py`) depends only on the time-of-day components of start and end
(it is invariant under shifting either endpoint by whole days), it fails
exactly when the start's time of day is before 08:00 or the end's time of day
is before 08:00 or after 22:00, and consequently a booking crossing midnight
— start 23:00 (minute 1380 of day 0), end 12:00 the next day (minute 2160) —
passes the check even though it occupies night hours. -/
theorem claim_C10 :
    (∀ (s e k j : Int),
      control_available_reservation_time (s + 1440 * k) (e + 1440 * j) =
        control_available_reservation_time s e) ∧
    (∀ s e : Time, control_available_reservation_time s e = false ↔
      (s % 1440 < 480 ∨ e % 1440 < 480 ∨ 1320 < e % 1440)) ∧
    control_available_reservation_time 1380 2160 = true := by
  refine ⟨?_, ?_, by decide⟩
  · intro s e k j
    simp only [control_available_reservation_time, Int.add_mul_emod_self_left]
  · intro s e
    by_cases h : (s % 1440 < 480 ∨ e % 1440 < 480 ∨ 1320 < e % 1440) <;>
      simp [control_available_reservation_time, h]

/-- C2: whenever the gathered list of colliding events has more than one
entry, `check_collision_time` reports a conflict (returns `false`), and its
result is invariant under any permutation of that input list. -/
theorem claim_C2 (supplier : EventSupplier) (s e : Time) (calendar : Calendar)
    (l1 l2 : List GEvent) (hperm : l1.Perm l2) :
    (check_collision_time supplier l1 s e calendar =
      check_collision_time supplier l2 s e calendar) ∧
    (1 < l1.length → check_collision_time supplier l1 s e calendar = false) := by
  have hlen := hperm.length_eq
  constructor
  · rcases l1 with _ | ⟨a, _ | ⟨b, t⟩⟩
    · rw [List.nil_perm] at hperm
      rw [hperm]
    · rw [List.singleton_perm] at hperm
      rw [hperm]
    · have h1 : 1 < (a :: b :: t).length := by simp
      rw [check_collision_time_of_one_lt supplier _ s e calendar h1,
        check_collision_time_of_one_lt supplier _ s e calendar (hlen ▸ h1)]
  · intro h1
    exact check_collision_time_of_one_lt supplier _ s e calendar h1

/-- Witness for C2 at concrete inputs: two overlapping existing bookings
[10:00,12:00) and [11:00,13:00) against request [10:00,13:00), in both
orders, on `sampleCalendar`. -/
theorem claim_C2_witness :
    (check_collision_time emptySupplier [⟨600, 720⟩, ⟨660, 780⟩] 600 780 sampleCalendar =
      check_collision_time emptySupplier [⟨660, 780⟩, ⟨600, 720⟩] 600 780 sampleCalendar) ∧
    check_collision_time emptySupplier [⟨600, 720⟩, ⟨660, 780⟩] 600 780 sampleCalendar = false :=
  ⟨(claim_C2 emptySupplier 600 780 sampleCalendar
      [⟨600, 720⟩, ⟨660, 780⟩] [⟨660, 780⟩, ⟨600, 720⟩] (by decide)).1,
   (claim_C2 emptySupplier 600 780 sampleCalendar
      [⟨600, 720⟩, ⟨660, 780⟩] [⟨660, 780⟩, ⟨600, 720⟩] (by decide)).2 (by decide)⟩

lemma check_collision_time_congr (supplier : EventSupplier) (l : List GEvent)
    (s e : Time) (c1 c2 : Calendar) (hid : c1.id = c2.id)
    (hmax : c1.max_people = c2.max_people)
    (hcwi : c1.collision_with_itself = c2.collision_with_itself) :
    check_collision_time supplier l s e c1 =
      check_collision_time supplier l s e c2 := by
  unfold check_collision_time
  rw [hid, hmax, hcwi]

/-- The Boolean result of `control_collision` is `check_collision_time`
applied to the gathered list and the original calendar (the detector only
reads fields the internal mutation leaves unchanged). -/
lemma control_collision_result (supplier : EventSupplier)
    (event_input : EventCreate) (calendar : Calendar) :
    (control_collision supplier event_input calendar).1 =
      check_collision_time supplier
        (gather_collisions supplier event_input calendar)
        event_input.start_datetime event_input.end_datetime calendar := by
  rw [control_collision_fst]
  exact check_collision_time_congr _ _ _ _ _ _ rfl rfl rfl

lemma control_collision_no_self_result (supplier : EventSupplier)
    (event_input : EventCreate) (calendar : Calendar) :
    (control_collision_no_self supplier event_input calendar).1 =
      check_collision_time_no_self
        (gather_collisions supplier event_input calendar)
        event_input.start_datetime event_input.end_datetime := by
  unfold control_collision_no_self gather_collisions
  simp only [append_singleton_isEmpty_false, Bool.false_eq_true, if_false]

lemma length_supplier_id_le_gather (supplier : EventSupplier)
    (event_input : EventCreate) (calendar : Calendar) :
    (supplier event_input.start_datetime event_input.end_datetime calendar.id).length ≤
      (gather_collisions supplier event_input calendar).length :=
  length_le_length_flatMap (calendar.collision_with_calendar ++ [calendar.id])
    (fun cid => supplier event_input.start_datetime event_input.end_datetime cid)
    calendar.id (List.mem_append_right _ (List.mem_singleton_self _))

/-- C1: when the gathered set of existing intervals overlapping the requested
window has exactly one element, `control_collision` (on a calendar satisfying
the schema invariant `max_people ≥ 1`) reports the slot free (`true`) exactly
when that single interval is back-to-back with the request — existing end
equals requested start, or existing start equals requested end; any other
configuration is a conflict. -/
theorem claim_C1 (supplier : EventSupplier) (event_input : EventCreate)
    (calendar : Calendar) (ev : GEvent)
    (hmax : 1 ≤ calendar.max_people)
    (hC : gather_collisions supplier event_input calendar = [ev]) :
    ((control_collision supplier event_input calendar).1 = true ↔
      (ev.endDateTime = event_input.start_datetime ∨
       ev.startDateTime = event_input.end_datetime)) := by
  have hle : (supplier event_input.start_datetime event_input.end_datetime
      calendar.id).length ≤ 1 := by
    have h := length_supplier_id_le_gather supplier event_input calendar
    rw [hC] at h
    simpa using h
  rw [control_collision_result, hC, check_collision_time_singleton]
  · simp
  · rintro ⟨-, hlt⟩
    omega

/-- Witness for C1: the spec's adjacency example — existing booking
[10:00,12:00) (minutes [600,720)) on `sampleCalendar`, requested
[12:00,13:00) (minutes [720,780)) — yields no conflict. -/
theorem claim_C1_witness :
    (control_collision (singleSupplier "cal-A" ⟨600, 720⟩)
        (sampleEvent 720 780 4) sampleCalendar).1 = true :=
  (claim_C1 (singleSupplier "cal-A" ⟨600, 720⟩) (sampleEvent 720 780 4)
      sampleCalendar ⟨600, 720⟩ (by norm_num [sampleCalendar])
      (by decide)).mpr (Or.inl rfl)

/-- C9: on any calendar satisfying the schema invariant `max_people ≥ 1`,
and for any (deterministic) interval supplier, removing the self-overlap
capacity branch from the collision detector never changes the verdict:
whenever the branch fires, the gathered list — which always contains the
calendar's own events — already has more than one entry, so the branch-free
variant reports the same conflict; the two detectors agree on all inputs. -/
theorem claim_C9 (supplier : EventSupplier) (event_input : EventCreate)
    (calendar : Calendar) (hmax : 1 ≤ calendar.max_people) :
    (control_collision supplier event_input calendar).1 =
      (control_collision_no_self supplier event_input calendar).1 := by
  rw [control_collision_result, control_collision_no_self_result]
  by_cases hb : (¬ calendar.collision_with_itself = true ∧
      calendar.max_people < ((supplier event_input.start_datetime
        event_input.end_datetime calendar.id).length : Int))
  · have hlen : (supplier event_input.start_datetime event_input.end_datetime
        calendar.id).length ≤ (gather_collisions supplier event_input calendar).length :=
      length_supplier_id_le_gather supplier event_input calendar
    have h2 : 1 < (gather_collisions supplier event_input calendar).length := by
      rcases hb with ⟨-, hlt⟩
      omega
    rw [check_collision_time_of_one_lt _ _ _ _ _ h2,
      check_collision_time_no_self_of_one_lt _ _ _ h2]
  · exact check_collision_time_eq_no_self supplier _ _ _ calendar hb

/-- Witness for C9: a calendar disallowing self-collision with capacity 1 and
two existing own events; both detector variants report the conflict. -/
theorem claim_C9_witness :
    (control_collision
        (fun _ _ c => if c = "cal-A" then [⟨600, 720⟩, ⟨630, 750⟩] else [])
        (sampleEvent 600 780 4)
        { sampleCalendar with collision_with_itself := false, max_people := 1 }).1 =
      (control_collision_no_self
        (fun _ _ c => if c = "cal-A" then [⟨600, 720⟩, ⟨630, 750⟩] else [])
        (sampleEvent 600 780 4)
        { sampleCalendar with collision_with_itself := false, max_people := 1 }).1 :=
  claim_C9 _ _ _ (by norm_num [sampleCalendar])
/-- C3: the eligibility evaluator
(`EventService.__control_conditions_and_permissions` together with its
helpers) applies its checks sequentially, short-circuiting on the first
failure, in the order: membership/service entitlement, start not before now,
end not before start, capacity, maximum duration, advance notice, prior
window — it coincides extensionally with the first-failing-check evaluator
`eligibility_spec_order` written from the specification's ordering, so the
returned decision is always the reason of the first failing check. -/
theorem claim_C3 (user : User) (services : List ServiceValidity)
    (event_input : EventCreate) (calendar : Calendar)
    (reservation_service : ReservationService) (now : Time) :
    control_conditions_and_permissions user services event_input calendar
        reservation_service now =
      eligibility_spec_order user services event_input calendar
        reservation_service now := by
  by_cases h1 : service_availability_check services reservation_service.«alias» = true <;>
  by_cases h2 : event_input.start_datetime < now <;>
  by_cases h3 : event_input.end_datetime < event_input.start_datetime <;>
  by_cases h4 : calendar.more_than_max_people_with_permission = true <;>
  by_cases h5 : calendar.max_people < event_input.guests <;>
  by_cases h6 : dif_days_res event_input.start_datetime event_input.end_datetime
      (choose_user_rules user calendar reservation_service) = true <;>
  by_cases h7 : control_res_in_advance_or_prior event_input.start_datetime now
      (choose_user_rules user calendar reservation_service) true = true <;>
  by_cases h8 : control_res_in_advance_or_prior event_input.start_datetime now
      (choose_user_rules user calendar reservation_service) false = true <;>
  simp_all [control_conditions_and_permissions, eligibility_spec_order,
    firstFailure, first_standard_check, reservation_in_advance, not_lt] <;>
  (try rw [if_neg (not_lt.mpr h2)]) <;>
  (try rw [if_neg (not_lt.mpr h3)]) <;>
  simp_all [not_le] <;>
  rw [if_neg (not_le.mpr h5)]

/-- Counterexample to C4 as stated: for the request [200,100) (end strictly
before start) made by a user whose service list is empty, `create_event`
returns the missing-entitlement denial — not the invalid-interval one —
because the membership check runs before temporal sanity. -/
theorem claim_C4_counterexample :
    (sampleEvent 200 100 2).end_datetime < (sampleEvent 200 100 2).start_datetime ∧
    create_event emptySupplier sampleUserMember [] (sampleEvent 200 100 2)
        sampleCalendar sampleService 0 =
      Outcome.denied (CheckMsg.missingService "game") ∧
    Outcome.denied (CheckMsg.missingService "game") ≠
      Outcome.denied CheckMsg.beforePresent ∧
    Outcome.denied (CheckMsg.missingService "game") ≠
      Outcome.denied CheckMsg.endBeforeStart := by
  refine ⟨by norm_num [sampleEvent], by decide, by decide, by decide⟩

/-- C4 (amended): for every booking request whose end is strictly before its
start, made by a requester who holds the service entitlement, against a
calendar satisfying the schema invariant `max_people ≥ 1` and a faithful
interval supplier (one returning only intervals overlapping the queried
window), `create_event` returns one of the two InvalidInterval denials
(start-before-now or end-before-start) — never a collision or capacity
outcome. -/
theorem claim_C4 (supplier : EventSupplier) (user : User)
    (services : List ServiceValidity) (event_create : EventCreate)
    (calendar : Calendar) (reservation_service : ReservationService) (now : Time)
    (hfaith : FaithfulSupplier supplier)
    (hmaxp : 1 ≤ calendar.max_people)
    (hend : event_create.end_datetime < event_create.start_datetime)
    (hmem : service_availability_check services reservation_service.«alias» = true) :
    create_event supplier user services event_create calendar
        reservation_service now = Outcome.denied CheckMsg.beforePresent ∨
    create_event supplier user services event_create calendar
        reservation_service now = Outcome.denied CheckMsg.endBeforeStart := by
  have hsup : ∀ cid, supplier event_create.start_datetime
      event_create.end_datetime cid = [] := by
    intro cid
    by_contra hne
    obtain ⟨ev, hev⟩ := List.exists_mem_of_ne_nil _ hne
    have hov := hfaith _ _ cid ev hev
    unfold overlapsWindow at hov
    have h1 : min ev.endDateTime event_create.end_datetime ≤
        event_create.end_datetime := min_le_right _ _
    have h2 : event_create.start_datetime ≤
        max ev.startDateTime event_create.start_datetime := le_max_right _ _
    linarith
  have hgather : gather_collisions supplier event_create calendar = [] := by
    unfold gather_collisions
    exact List.flatMap_eq_nil_iff.mpr (fun x _ => hsup x)
  have hbr : ¬ (¬ calendar.collision_with_itself = true ∧
      calendar.max_people < ((supplier event_create.start_datetime
        event_create.end_datetime calendar.id).length : Int)) := by
    rintro ⟨-, hlt⟩
    rw [hsup] at hlt
    simp at hlt
    omega
  have hfree : (control_collision supplier event_create calendar).1 = true := by
    rw [control_collision_result, hgather]
    unfold check_collision_time
    rw [if_neg hbr]
    simp
  by_cases hpast : event_create.start_datetime < now
  · left
    simp [create_event, hfree, control_conditions_and_permissions,
      first_standard_check, hmem, hpast]
  · right
    simp [create_event, hfree, control_conditions_and_permissions,
      first_standard_check, hmem, hpast, hend]

/-- Witness for the amended C4: member holding the "game" service, request
[200,100) with end before start; the outcome is an InvalidInterval denial. -/
theorem claim_C4_witness :
    create_event emptySupplier sampleUserMember [⟨⟨"game", "Game room access"⟩⟩]
        (sampleEvent 200 100 2) sampleCalendar sampleService 0 =
      Outcome.denied CheckMsg.beforePresent ∨
    create_event emptySupplier sampleUserMember [⟨⟨"game", "Game room access"⟩⟩]
        (sampleEvent 200 100 2) sampleCalendar sampleService 0 =
      Outcome.denied CheckMsg.endBeforeStart :=
  claim_C4 emptySupplier sampleUserMember [⟨⟨"game", "Game room access"⟩⟩]
    (sampleEvent 200 100 2) sampleCalendar sampleService 0
    (fun _ _ _ ev hev => absurd hev (List.not_mem_nil ev))
    (by norm_num [sampleCalendar])
    (by norm_num [sampleEvent])
    (by decide)

/-- C5: for a request with more guests than the calendar's `max_people` that
passes every other check (no collision, membership and temporal sanity,
duration, advance and prior window): when the calendar does not allow
over-capacity with permission, the request is denied with the over-capacity
reason and nothing is created; when it does, the outcome is
`flaggedOverCapacity` — the booking is created in the not-approved state;
and (unconditionally) no request with guests above capacity ever yields the
`confirmed` outcome. -/
theorem claim_C5 (supplier : EventSupplier) (user : User)
    (services : List ServiceValidity) (event_create : EventCreate)
    (calendar : Calendar) (reservation_service : ReservationService) (now : Time)
    (hguests : calendar.max_people < event_create.guests)
    (hfree : (control_collision supplier event_create calendar).1 = true)
    (hstd : first_standard_check services reservation_service
        event_create.start_datetime event_create.end_datetime now = none)
    (hdur : dif_days_res event_create.start_datetime event_create.end_datetime
        (choose_user_rules user calendar reservation_service) = true)
    (hadv : reservation_in_advance event_create.start_datetime now
        (choose_user_rules user calendar reservation_service) = none) :
    (calendar.more_than_max_people_with_permission = false →
      create_event supplier user services event_create calendar
          reservation_service now =
        Outcome.denied (CheckMsg.overCapacity calendar.max_people)) ∧
    (calendar.more_than_max_people_with_permission = true →
      create_event supplier user services event_create calendar
          reservation_service now = Outcome.flaggedOverCapacity) ∧
    (∀ (sup : EventSupplier) (u : User) (sv : List ServiceValidity)
        (ev : EventCreate) (c : Calendar) (rs : ReservationService) (n : Time),
      c.max_people < ev.guests →
      create_event sup u sv ev c rs n ≠ Outcome.confirmed) := by
  refine ⟨?_, ?_, ?_⟩
  · intro hflag
    simp [create_event, hfree, control_conditions_and_permissions, hstd,
      hflag, hguests]
  · intro hflag
    simp [create_event, hfree, control_conditions_and_permissions, hstd,
      hflag, hguests, hdur, hadv]
  · intro sup u sv ev c rs n hg
    unfold create_event
    by_cases hcol : (control_collision sup ev c).1 = true
    · rw [if_neg (by simp [hcol])]
      cases hcc : control_conditions_and_permissions u sv ev c rs n with
      | some m => simp [hcc]
      | none => simp [hcc, hg]
    · simp [hcol]

/-- Witness for C5: 10 guests against `sampleCalendar` (capacity 8,
over-capacity permission disabled), all other checks passing; the outcome is
the over-capacity denial. -/
theorem claim_C5_witness :
    create_event emptySupplier sampleUserMember [⟨⟨"game", "Game room access"⟩⟩]
        (sampleEvent 10000 10100 10) sampleCalendar sampleService 0 =
      Outcome.denied (CheckMsg.overCapacity 8) :=
  (claim_C5 emptySupplier sampleUserMember [⟨⟨"game", "Game room access"⟩⟩]
      (sampleEvent 10000 10100 10) sampleCalendar sampleService 0
      (by norm_num [sampleCalendar, sampleEvent])
      (by decide) (by decide) (by decide) (by decide)).1 rfl

/-- C7 (refuting purity): `control_collision` mutates its calendar argument —
the Python local `collisions` aliases `calendar.collision_with_calendar`, so
`collisions.append(calendar.id)` grows the calendar's own list.  At this
concrete input (calendar "cal-A" with no declared colliding calendars and
one existing own event [600,720) adjacent to the request [720,780)): the
returned calendar differs from the input, its collision list has gained
"cal-A", the first call reports the slot free, and repeating the call on the
mutated calendar reports a conflict — the self events are now gathered
twice. -/
theorem claim_C7 :
    ((control_collision (singleSupplier "cal-A" ⟨600, 720⟩)
        (sampleEvent 720 780 4) sampleCalendar).2 ≠ sampleCalendar) ∧
    ((control_collision (singleSupplier "cal-A" ⟨600, 720⟩)
        (sampleEvent 720 780 4) sampleCalendar).2.collision_with_calendar =
      ["cal-A"]) ∧
    ((control_collision (singleSupplier "cal-A" ⟨600, 720⟩)
        (sampleEvent 720 780 4) sampleCalendar).1 = true) ∧
    ((control_collision (singleSupplier "cal-A" ⟨600, 720⟩)
        (sampleEvent 720 780 4)
        ((control_collision (singleSupplier "cal-A" ⟨600, 720⟩)
            (sampleEvent 720 780 4) sampleCalendar).2)).1 = false) := by
  refine ⟨by decide, by decide, by decide, by decide⟩
